import Mathlib

/-!
Verification of the customer-support pipeline (query processor, agent state
management, memory manager, graph builder, main entry points).

Strings from the Python source are modelled as `List Char` (ASCII fragment:
`lower`, `strip`, `isupper` are modelled on the ASCII casing that all string
constants of the program use).  Python float confidences are modelled exactly
in units of 1/60 (all constants of the program - 0.0, 0.3, 1/3, 2/3, 0.95,
1.0 - are multiples of 1/60, and every comparison the code performs on them
is exact in this scale).
-/

set_option maxRecDepth 100000

/-! ## Python string primitives -/

/-- Python whitespace test, restricted to the ASCII whitespace characters. -/
def pyIsSpace (c : Char) : Bool :=
  decide (c = ' ') || decide (c = '\t') || decide (c = '\n') || decide (c = '\r')

/-- Python `str.lower()` on the ASCII fragment. -/
def pyLower (s : List Char) : List Char := s.map Char.toLower

/-- Python `str.strip()`: remove leading and trailing whitespace. -/
def pyStrip (s : List Char) : List Char :=
  ((s.dropWhile pyIsSpace).reverse.dropWhile pyIsSpace).reverse

/-- Python `needle in hay` substring test. -/
def pyContains (hay needle : List Char) : Bool := decide (needle <:+: hay)

/-- Python `str.isupper()`: at least one cased character and no lowercase
character (ASCII fragment: cased characters are the letters). -/
def pyIsUpper (s : List Char) : Bool :=
  s.any (fun c => c.isAlpha) && s.all (fun c => !c.isLower)

/-- Maximal runs of characters satisfying `p` (fuel-indexed helper). -/
def splitRunsGo (p : Char → Bool) : Nat → List Char → List (List Char)
  | 0, _ => []
  | _, [] => []
  | fuel+1, c :: cs =>
    if p c then (c :: cs.takeWhile p) :: splitRunsGo p fuel (cs.dropWhile p)
    else splitRunsGo p fuel cs

/-- Maximal runs of characters satisfying `p`. -/
def splitRuns (p : Char → Bool) (s : List Char) : List (List Char) :=
  splitRunsGo p (s.length + 1) s

/-- Python `str.split()` with no argument: whitespace-separated words. -/
def pySplitWs (s : List Char) : List (List Char) :=
  splitRuns (fun c => !pyIsSpace c) s

/-- Python `re.findall(r"\w+", s)`: maximal runs of word characters. -/
def pyWordTokens (s : List Char) : List (List Char) :=
  splitRuns (fun c => c.isAlphanum || decide (c = '_')) s

/-- Python slice `l[a:]` for an arbitrary (possibly negative) integer `a`. -/
def pySliceFrom {α : Type} (l : List α) (a : Int) : List α :=
  if 0 ≤ a then l.drop a.toNat else l.drop (l.length - (-a).toNat)

/-- Python slice `l[-n:]` for natural `n` (the last `n` elements; the whole
list when `n = 0`, because Python reads `l[-0:]` as `l[0:]`). -/
def lastN {α : Type} (l : List α) (n : Nat) : List α :=
  l.drop (l.length - n)


/-! ## query_processor.py : MockLLMNode -/

/-- Canned answer for "how do i reset my password". -/
def resp_pw_reset : List Char :=
  "To reset your password:\n\n1. Visit our login page and click \"Forgot Password?\"\n2. Enter your registered email address\n3. Check your email for a password reset link (may take up to 5 minutes)\n4. Click the link and create a new secure password\n5. Your new password must contain at least 8 characters with uppercase, lowercase, and numbers\n\nIf you don\x27t receive the email, check your spam folder or contact support for assistance.".toList

/-- Canned answer for "i forgot my password can you help". -/
def resp_pw_forgot : List Char :=
  "I can definitely help you recover your password! Here\x27s what to do:\n\n1. Go to the login page and select \"Forgot Password?\"\n2. Enter the email address associated with your account\n3. You\x27ll receive a password reset email within 5 minutes\n4. Follow the secure link in the email to create a new password\n5. Make sure your new password is strong and unique\n\nIf you\x27re having trouble receiving the email, please check your spam folder first.".toList

/-- Canned answer for "my account is locked what should i do". -/
def resp_locked : List Char :=
  "If your account is locked, here are the steps to unlock it:\n\n1. Wait 15 minutes - temporary locks often resolve automatically\n2. Try the \"Forgot Password?\" option to reset your credentials\n3. Clear your browser cache and cookies, then try logging in again\n4. If still locked, it may be due to multiple failed login attempts\n\nFor immediate assistance, contact our support team at support@company.com with your username or email address.".toList

/-- Canned answer for "how do i change my password". -/
def resp_pw_change : List Char :=
  "To change your password while logged in:\n\n1. Go to Account Settings → Security\n2. Click on \"Change Password\"\n3. Enter your current password\n4. Create a new secure password (8+ characters, mixed case, numbers)\n5. Confirm the new password\n6. Click \"Update Password\"\n\nYou\x27ll receive a confirmation email once the change is successful. For security, you\x27ll be logged out of all devices.".toList

/-- Canned answer for "i can not log in to my account". -/
def resp_cant_login : List Char :=
  "Let\x27s troubleshoot your login issue:\n\n1. **Check your credentials**: Ensure you\x27re using the correct email/username and password\n2. **Try password reset**: Use \"Forgot Password?\" if you\x27re unsure about your password\n3. **Clear browser data**: Clear cache, cookies, and try a different browser\n4. **Check account status**: Your account might be temporarily locked\n5. **Verify email**: Make sure you\x27ve verified your email address\n\nIf none of these work, please contact support with your username or registered email.".toList

/-- Canned answer for "why am i getting invalid credentials error". -/
def resp_invalid_creds : List Char :=
  "The \"invalid credentials\" error usually means:\n\n1. **Incorrect password**: Try using \"Forgot Password?\" to reset it\n2. **Wrong email/username**: Double-check you\x27re using the right login credentials\n3. **Account not verified**: Check if you need to verify your email address\n4. **Caps Lock**: Ensure Caps Lock isn\x27t affecting your password\n5. **Browser issues**: Clear cache/cookies or try a different browser\n\nIf you\x27re certain your credentials are correct, your account may be locked. Contact support for assistance.".toList

/-- Canned answer for "how do i enable two-factor authentication". -/
def resp_enable_2fa : List Char :=
  "To enable two-factor authentication (2FA):\n\n1. Go to Account Settings → Security\n2. Find \"Two-Factor Authentication\" section\n3. Click \"Enable 2FA\"\n4. Download an authenticator app (Google Authenticator, Authy, etc.)\n5. Scan the QR code with your authenticator app\n6. Enter the 6-digit code from your app to verify\n7. Save your backup codes in a secure location\n\n2FA adds an extra layer of security to protect your account from unauthorized access.".toList

/-- Canned answer for "i lost my 2fa device how do i access my account". -/
def resp_lost_2fa : List Char :=
  "If you lost your 2FA device, here\x27s how to regain access:\n\n1. **Use backup codes**: If you saved backup codes during 2FA setup, use one of those\n2. **Account recovery**: Contact our support team with verification details:\n   - Your full name and email address\n   - Last known password\n   - Recent account activity details\n3. **Alternative verification**: We may ask for additional identity verification\n4. **Device replacement**: Once verified, we\x27ll help you set up 2FA on a new device\n\nFor security reasons, this process may take 24-48 hours to complete.".toList

/-- Canned answer for "can i use my email instead of username to login". -/
def resp_email_login : List Char :=
  "Yes! You can log in using either:\n\n1. **Email address**: Enter your full email address in the username field\n2. **Username**: Use your chosen username if you prefer\n\nBoth methods work with the same password. If you\x27re having trouble:\n- Make sure you\x27re using the correct email format (user@domain.com)\n- Try both your email and username to see which one works\n- Use \"Forgot Password?\" if you\x27re unsure about your password\n\nThe system accepts both login methods for your convenience.".toList

/-- Canned answer for "my session keeps timing out why". -/
def resp_session_timeout : List Char :=
  "Session timeouts can occur for several reasons:\n\n1. **Inactivity**: Sessions automatically expire after 30 minutes of inactivity for security\n2. **Browser settings**: Check if your browser is set to clear cookies/data\n3. **Network issues**: Unstable connections can cause session interruptions\n4. **Multiple devices**: Logging in from another device may end your current session\n5. **Security settings**: Enhanced security settings may reduce session duration\n\nTo minimize timeouts:\n- Stay active in your account\n- Check \"Remember me\" if available\n- Ensure stable internet connection\n- Contact support if timeouts are unusually frequent".toList

/-- Fallback answer of `MockLLMNode.get_response` for unmatched queries. -/
def default_auth_response : List Char :=
  "I understand you\x27re having an account or authentication issue. Here are some general steps that might help:\n\n1. Try resetting your password using \"Forgot Password?\"\n2. Clear your browser cache and cookies\n3. Check your email for any account notifications\n4. Contact our support team if the issue persists\n\nIs there a specific authentication problem you\x27re experiencing?".toList

/-- Embeds `MockLLMNode.mock_responses`, in Python dict insertion order. -/
def mock_responses : List (List Char × List Char) :=
  [("how do i reset my password".toList, resp_pw_reset),
   ("i forgot my password can you help".toList, resp_pw_forgot),
   ("my account is locked what should i do".toList, resp_locked),
   ("how do i change my password".toList, resp_pw_change),
   ("i can\x27t log in to my account".toList, resp_cant_login),
   ("why am i getting invalid credentials error".toList, resp_invalid_creds),
   ("how do i enable two-factor authentication".toList, resp_enable_2fa),
   ("i lost my 2fa device how do i access my account".toList, resp_lost_2fa),
   ("can i use my email instead of username to login".toList, resp_email_login),
   ("my session keeps timing out why".toList, resp_session_timeout)]

/-- Embeds `MockLLMNode._is_similar_query`: word-set overlap ratio above 0.5.
`overlap / min > 0.5` on exact rationals is `2 * overlap > min`; the float
division the source performs cannot cross the exactly representable 0.5
for these small integer operands. -/
def is_similar_query (query reference : List Char) : Bool :=
  let query_words := (pySplitWs query).dedup
  let reference_words := (pySplitWs reference).dedup
  let overlap := (query_words.filter (fun w => decide (w ∈ reference_words))).length
  let minLength := min query_words.length reference_words.length
  if minLength > 0 then decide (2 * overlap > minLength) else false

/-- Direct (exact key) lookup step of `MockLLMNode.get_response`. -/
def mockDirect (query_lower : List Char) : Option (List Char) :=
  (mock_responses.find? (fun kv => decide (kv.1 = query_lower))).map (fun kv => kv.2)

/-- Fuzzy-matching step of `MockLLMNode.get_response`: the first catalog
entry whose key is similar to the query. -/
def mockFuzzy (query_lower : List Char) : Option (List Char × List Char) :=
  mock_responses.find? (fun kv => is_similar_query query_lower kv.1)

/-- Embeds `MockLLMNode.get_response`. -/
def mockGetResponse (query : List Char) : List Char :=
  let query_lower := pyStrip (pyLower query)
  match mockDirect query_lower with
  | some r => r
  | none =>
    match mockFuzzy query_lower with
    | some kv => kv.2
    | none => default_auth_response

/-! ## query_processor.py : QueryProcessor -/

/-- One entry of `QueryProcessor.knowledge_base`: dict key, keyword list,
response template and category tag. -/
structure KBEntry where
  name : String
  keywords : List (List Char)
  response : List Char
  category : String
deriving DecidableEq, Repr

/-- Knowledge-base response for the `password_reset` entry. -/
def kb_resp_password_reset : List Char :=
  "To reset your password:\n\n1. Go to the login page at https://login.techtrendinnovations.com\n2. Click on \"Forgot Password?\" link\n3. Enter your registered email address\n4. Check your email for the password reset link\n5. Click the link and create a new password\n6. Your new password must be at least 8 characters with uppercase, lowercase, and numbers\n\nThe reset link expires in 24 hours. If you don\x27t receive the email, please check your spam folder.".toList

/-- Knowledge-base response for the `billing` entry. -/
def kb_resp_billing : List Char :=
  "For billing-related inquiries:\n\n• View billing details: Account Settings > Billing & Payments\n• Download invoices: Billing section > Invoice History\n• Update payment method: Settings > Payment Methods\n• View subscription plans: Account > Subscription\n\nIf you notice any incorrect charges, please provide the transaction ID and date for immediate assistance.".toList

/-- Knowledge-base response for the `features` entry. -/
def kb_resp_features : List Char :=
  "I can help you with our features! Here are some quick guides:\n\n• Getting Started Guide: https://docs.techtrendinnovations.com/getting-started\n• Feature Tutorials: https://docs.techtrendinnovations.com/features\n• Video Walkthroughs: https://learn.techtrendinnovations.com\n• API Documentation: https://api.techtrendinnovations.com/docs\n\nWhich specific feature would you like to learn about?".toList

/-- Knowledge-base response for the `account` entry. -/
def kb_resp_account : List Char :=
  "For account management:\n\n• Edit Profile: Settings > Profile Information\n• Security Settings: Settings > Security & Privacy\n• Notification Preferences: Settings > Notifications\n• Data Export: Settings > Privacy > Export Data\n• Account Deletion: Settings > Privacy > Delete Account\n\nWhat specific account setting would you like to modify?".toList

/-- Knowledge-base response for the `technical_issue` entry. -/
def kb_resp_technical : List Char :=
  "I\x27ll help you resolve this technical issue. Please provide:\n\n1. Error message (if any)\n2. What you were trying to do\n3. Browser/device information\n4. When the issue started\n\nIn the meantime, try these quick fixes:\n• Clear browser cache and cookies\n• Try a different browser\n• Disable browser extensions\n• Check your internet connection".toList

/-- Embeds `QueryProcessor._build_knowledge_base`, in Python dict insertion order. -/
def knowledge_base : List KBEntry :=
  [⟨"password_reset", ["password".toList, "reset".toList, "forgot".toList, "login".toList, "access".toList], kb_resp_password_reset, "account"⟩,
   ⟨"billing", ["billing".toList, "payment".toList, "invoice".toList, "charge".toList, "subscription".toList, "cost".toList], kb_resp_billing, "billing"⟩,
   ⟨"features", ["feature".toList, "how to".toList, "tutorial".toList, "guide".toList, "use".toList], kb_resp_features, "support"⟩,
   ⟨"account", ["account".toList, "profile".toList, "settings".toList, "preferences".toList], kb_resp_account, "account"⟩,
   ⟨"technical_issue", ["error".toList, "bug".toList, "not working".toList, "crash".toList, "issue".toList, "problem".toList], kb_resp_technical, "technical"⟩]

/-- Embeds `QueryProcessor.complex_indicators`. -/
def complex_indicators : List (List Char) :=
  ["refund".toList, "legal".toList, "escalate".toList, "manager".toList, "complaint".toList,
   "lawsuit".toList, "security breach".toList, "data leak".toList, "unauthorized access".toList,
   "fraud".toList, "billing dispute".toList, "cancel subscription".toList]

/-- The keyword list of `QueryProcessor._is_authentication_query`. -/
def auth_keywords : List (List Char) :=
  ["password".toList, "login".toList, "log in".toList, "sign in".toList, "access".toList, "account".toList,
   "credentials".toList, "locked".toList, "reset".toList, "forgot".toList, "change".toList,
   "2fa".toList, "two-factor".toList, "authentication".toList, "authenticator".toList,
   "session".toList, "timeout".toList, "email".toList, "username".toList, "invalid".toList]

/-- Embeds `QueryProcessor.analyze_query`.  Returns the best-scoring knowledge-base
key and a confidence in units of 1/60 (`min(score/3, 1.0)` becomes
`min (20 * score) 60`); strict improvement keeps the first category on ties. -/
def analyze_query (query : List Char) : String × Nat :=
  let query_lower := pyLower query
  let best := knowledge_base.foldl
    (fun best entry =>
      let score := entry.keywords.countP (fun kw => pyContains query_lower kw)
      if score > best.2 then (entry.name, score) else best)
    ("general", 0)
  if best.2 > 0 then (best.1, min (20 * best.2) 60) else ("general", 0)

/-- Embeds `QueryProcessor.is_complex_query`: escalation-trigger terms, more than
two question marks, or an all-caps query longer than 20 characters. -/
def is_complex_query (query : List Char) : Bool :=
  let query_lower := pyLower query
  if complex_indicators.any (fun ind => pyContains query_lower ind) then true
  else if query.countP (fun c => decide (c = '?')) > 2 then true
  else if pyIsUpper query && decide (query.length > 20) then true
  else false

/-- Embeds `QueryProcessor._is_authentication_query`. -/
def is_authentication_query (query : List Char) : Bool :=
  auth_keywords.any (fun kw => pyContains (pyLower query) kw)

/-- Stopword set of `QueryProcessor._are_queries_related`. -/
def common_words : List (List Char) :=
  ["the".toList, "a".toList, "an".toList, "is".toList, "how".toList, "what".toList,
   "when".toList, "where".toList, "can".toList, "my".toList, "i".toList]

/-- Embeds `QueryProcessor._are_queries_related`: at least two shared non-stopword
word tokens. -/
def are_queries_related (query1 query2 : List Char) : Bool :=
  let words1 := ((pyWordTokens (pyLower query1)).dedup).filter (fun w => decide (w ∉ common_words))
  let words2 := ((pyWordTokens (pyLower query2)).dedup).filter (fun w => decide (w ∉ common_words))
  decide ((words1.filter (fun w => decide (w ∈ words2))).length ≥ 2)

/-- Filtering configuration dict of `filter_messages` (defaults are the
dict built when `filter_config is None`). -/
structure FilterConfig where
  filter_greetings : Bool := true
  filter_short_messages : Bool := true
  min_message_length : Nat := 10
  filter_repetitive : Bool := true
  filter_non_actionable : Bool := true
  preserve_important : Bool := true
deriving DecidableEq, Repr

/-- A Python value stored in a metadata dict: the numbers, strings, category
tags, booleans, `None` and filter configs the program actually stores. -/
inductive MetaVal where
  | natV (n : Nat)
  | txtV (s : List Char)
  | tagV (t : String)
  | boolV (b : Bool)
  | cfgV (c : FilterConfig)
  | noneV
deriving DecidableEq, Repr

/-- A metadata dict: association list, most recent binding first. -/
abbrev Metadata : Type := List (String × MetaVal)

/-- Dict update `m[k] = v`. -/
def mset (m : Metadata) (k : String) (v : MetaVal) : Metadata :=
  (k, v) :: m.filter (fun p => decide (p.1 ≠ k))

/-- Dict lookup `m.get(k)` (`none` when the key is absent). -/
def mget (m : Metadata) (k : String) : Option MetaVal :=
  (m.find? (fun p => decide (p.1 = k))).map (fun p => p.2)

/-- One stored interaction (`UserHistoryEntry` / the dict shape persisted by
`MemoryManager`): query, resolution, ISO timestamp and open metadata. -/
structure HistEntry where
  query : List Char
  resolution : List Char
  timestamp : List Char
  metadata : Metadata
deriving DecidableEq, Repr

/-- Generic clarification template of
`QueryProcessor._generate_personalized_response` (query interpolated). -/
def generic_clarification (query : List Char) : List Char :=
  "Thank you for your question about \"".toList ++ query ++
  "\". \n\nI\x27d be happy to help you with this. Could you please provide more details about:\n• What you\x27re trying to accomplish\n• Any error messages you\x27re seeing\n• When this issue started\n\nThis will help me provide you with the most accurate assistance.".toList

/-- Embeds `QueryProcessor._generate_personalized_response`; confidence in units
of 1/60 (`confidence > 0.3` becomes `conf > 18`). -/
def generate_personalized_response (query : List Char) (category : String)
    (confidence : Nat) (user_history : List HistEntry) : List Char :=
  let base :=
    match knowledge_base.find? (fun e => decide (e.name = category)) with
    | some e => if confidence > 18 then e.response else generic_clarification query
    | none => generic_clarification query
  if (lastN user_history 3).any (fun h => are_queries_related query h.query) then
    "I see you previously asked about similar topics. ".toList ++ base ++
    "\n\nBased on your history, I can also help with any follow-up questions.".toList
  else base

/-- Escalation acknowledgment text of `QueryProcessor.generate_response`. -/
def escalation_text : List Char :=
  "I understand this is an important matter that requires specialized attention. I\x27m escalating your query to our human support team who will review it and respond within 2 business hours. You\x27ll receive a notification once they\x27ve reviewed your case.".toList

/-- Result dict of `QueryProcessor.generate_response`; `source` is present
only on the authentication path, and confidence is in units of 1/60
(1.0 is 60, 0.95 is 57). -/
structure GenResult where
  response : List Char
  requires_hitl : Bool
  category : String
  confidence : Nat
  source : Option String
deriving DecidableEq, Repr

/-- Embeds `QueryProcessor.generate_response`: escalation check first, then the
authentication path, then the knowledge-base/general path. -/
def generate_response (query : List Char) (user_history : List HistEntry) : GenResult :=
  if is_complex_query query then
    ⟨escalation_text, true, "escalation", 60, none⟩
  else if is_authentication_query query then
    ⟨mockGetResponse query, false, "authentication", 57, some "mock_llm"⟩
  else
    ⟨generate_personalized_response query (analyze_query query).1 (analyze_query query).2 user_history,
     false, (analyze_query query).1, (analyze_query query).2, none⟩


/-! ## agent_state.py : messages and state -/

/-- A message in the session log: either a LangChain message object (with
`type` and `content` attributes, types `human` / `ai` / `system`) or a
legacy plain dictionary `\x7brole, content\x7d`. -/
inductive Msg where
  | obj (type : String) (content : List Char)
  | dict (role : String) (content : List Char)
deriving DecidableEq, Repr

/-- Python `hasattr(msg, 'type')`: only message objects carry attributes. -/
def msgHasType : Msg → Bool
  | Msg.obj _ _ => true
  | Msg.dict _ _ => false

/-- Python `getattr(msg, 'content', '')`: attribute access with default -
a dictionary message yields the empty string. -/
def getattrContent : Msg → List Char
  | Msg.obj _ c => c
  | Msg.dict _ _ => []

/-- Embeds `hasattr(msg, 'type') and msg.type == t`. -/
def msgTypeIs (t : String) : Msg → Bool
  | Msg.obj ty _ => decide (ty = t)
  | Msg.dict _ _ => false

/-- Whether the message survives as a message object (not a legacy dict). -/
def msgIsObj : Msg → Bool
  | Msg.obj _ _ => true
  | Msg.dict _ _ => false

/-- The role field as the data model reads it (the `type` attribute of a
message object, the `role` key of a legacy dict). -/
def msgRole : Msg → String
  | Msg.obj t _ => t
  | Msg.dict r _ => r

/-- The content field as the data model reads it (attribute or dict key). -/
def msgContent : Msg → List Char
  | Msg.obj _ c => c
  | Msg.dict _ c => c

/-- The per-message clause of `StateValidator.validate_state` (legacy dicts
with role in user/assistant/system are accepted for backward compatibility;
message objects need type human/ai/system). -/
def validMessage : Msg → Bool
  | Msg.obj t _ => decide (t = "human") || decide (t = "ai") || decide (t = "system")
  | Msg.dict r _ => decide (r = "user") || decide (r = "assistant") || decide (r = "system")

/-- Embeds `AgentState`: the session state threaded through the pipeline. -/
structure AgentStateM where
  messages : List Msg
  user_history : List HistEntry
  user_id : List Char
  thread_id : List Char
  metadata : Metadata
  requires_hitl : Bool
  hitl_approved : Option Bool
deriving DecidableEq, Repr

/-- Embeds `add_user_history_entry` (timestamp supplied by the injected clock). -/
def add_user_history_entry (clock : List Char) (state : AgentStateM)
    (query resolution : List Char) (metadata : Option Metadata) : AgentStateM :=
  { state with user_history :=
      state.user_history ++ [⟨query, resolution, clock, metadata.getD []⟩] }

/-- Embeds `trim_messages`: keep at most `max_messages` messages; when
`preserve_system` is set, all system messages are kept and the tail slice
`non_system[-(max_messages - len(system)):]` of the others is appended
after them (Python slice semantics, including the negative/zero cases). -/
def trim_messages (state : AgentStateM) (max_messages : Nat) (preserve_system : Bool) : AgentStateM :=
  if state.messages.length ≤ max_messages then state
  else
    let messages := state.messages
    let newMessages :=
      if preserve_system then
        let system_messages := messages.filter (msgTypeIs "system")
        let non_system_messages := messages.filter (fun m => !(msgTypeIs "system" m))
        let recent_messages :=
          pySliceFrom non_system_messages (-((max_messages : Int) - (system_messages.length : Int)))
        system_messages ++ recent_messages
      else
        pySliceFrom messages (-(max_messages : Int))
    let metadata' := mset (mset state.metadata "messages_trimmed"
        (MetaVal.natV (messages.length - newMessages.length)))
      "total_messages_before_trim" (MetaVal.natV messages.length)
    { state with messages := newMessages, metadata := metadata' }

/-- Greeting keywords of `filter_messages`. -/
def greeting_keywords : List (List Char) :=
  ["hello".toList, "hi".toList, "hey".toList, "greetings".toList, "good morning".toList,
   "good afternoon".toList, "good evening".toList]

/-- Farewell keywords of `filter_messages`. -/
def farewell_keywords : List (List Char) :=
  ["bye".toList, "goodbye".toList, "see you".toList, "talk to you later".toList,
   "ttyl".toList, "farewell".toList]

/-- Non-actionable phrases of `filter_messages` (matched by equality). -/
def non_actionable_keywords : List (List Char) :=
  ["ok".toList, "okay".toList, "thanks".toList, "thank you".toList, "got it".toList,
   "understood".toList, "sure".toList, "alright".toList]

/-- Important keywords of `filter_messages` (matched as substrings). -/
def important_keywords : List (List Char) :=
  ["password".toList, "reset".toList, "account".toList, "billing".toList, "refund".toList,
   "error".toList, "problem".toList, "issue".toList, "help".toList, "support".toList]

/-- The message loop of `filter_messages`, with the accumulator of already
accepted messages (drop rules are checked in source order; the system /
important keep rule short-circuits them all). -/
def filterLoop (cfg : FilterConfig) (exclude_roles : List String) :
    List Msg → List Msg → List Msg
  | [], acc => acc
  | msg :: rest, acc =>
    if msgHasType msg && decide (msgRole msg ∈ exclude_roles) then
      filterLoop cfg exclude_roles rest acc
    else
      let content := pyStrip (pyLower (getattrContent msg))
      if msgTypeIs "system" msg ||
         (cfg.preserve_important && important_keywords.any (fun kw => pyContains content kw)) then
        filterLoop cfg exclude_roles rest (acc ++ [msg])
      else if cfg.filter_short_messages && decide (content.length < cfg.min_message_length) then
        filterLoop cfg exclude_roles rest acc
      else if cfg.filter_greetings &&
          (greeting_keywords ++ farewell_keywords).any (fun kw => pyContains content kw) then
        filterLoop cfg exclude_roles rest acc
      else if cfg.filter_non_actionable && decide (content ∈ non_actionable_keywords) then
        filterLoop cfg exclude_roles rest acc
      else if cfg.filter_repetitive &&
          decide (content ∈ (lastN acc 3).map (fun m => pyStrip (pyLower (getattrContent m)))) then
        filterLoop cfg exclude_roles rest acc
      else
        filterLoop cfg exclude_roles rest (acc ++ [msg])

/-- Embeds `filter_messages` (`exclude_roles=None` and `filter_config=None` become
the empty list and the default config, as in the source). -/
def filter_messages (state : AgentStateM) (exclude_roles : List String)
    (filter_config : Option FilterConfig) : AgentStateM :=
  let cfg := filter_config.getD {}
  let original_count := state.messages.length
  let filtered := filterLoop cfg exclude_roles state.messages []
  let metadata' := mset (mset (mset state.metadata
      "messages_filtered" (MetaVal.natV (original_count - filtered.length)))
      "total_messages_before_filter" (MetaVal.natV original_count))
      "filter_config_used" (MetaVal.cfgV cfg)
  { state with messages := filtered, metadata := metadata' }

/-! ## memory_manager.py : MemoryManager -/

/-- A Python runtime value passed where a string is expected: either an
actual string or a value of some other type (used to model the
`isinstance` validation in `append_to_history`). -/
inductive PyVal where
  | str (s : List Char)
  | nonStr
deriving DecidableEq, Repr

/-- The per-user data blob stored in `user_<id>.json` (`last_updated` is
the collaborator clock and is not relevant to any claim, so it is kept
out of the model). -/
structure StoredData where
  user_history : List HistEntry
  smeta : Metadata
deriving DecidableEq, Repr

/-- The file-system store: one JSON blob per user id. -/
abbrev Store : Type := List (List Char × StoredData)

/-- Embeds `MemoryManager.load_long_term_memory`: the stored blob, or the empty
default when no file exists for the user. -/
def load_long_term_memory (store : Store) (user_id : List Char) : StoredData :=
  match store.find? (fun kv => decide (kv.1 = user_id)) with
  | some kv => kv.2
  | none => ⟨[], []⟩

/-- Embeds `MemoryManager.save_long_term_memory`: overwrite the user file (the
file write itself is the collaborator concern and always succeeds in the
model). -/
def save_long_term_memory (store : Store) (user_id : List Char)
    (user_history : List HistEntry) (metadata : Metadata) : Store :=
  (user_id, ⟨user_history, metadata⟩) :: store.filter (fun kv => decide (kv.1 ≠ user_id))

/-- Embeds `MemoryManager.append_to_history` with the injected clock: validates
that `user_id` is a string that is non-empty after stripping and that
`query` and `resolution` are strings, then loads, appends and saves.
Success and the (possibly unchanged) store are returned. -/
def append_to_history (clock : List Char) (store : Store)
    (user_id query resolution : PyVal) (metadata : Option Metadata) : Bool × Store :=
  match user_id with
  | PyVal.nonStr => (false, store)
  | PyVal.str uid =>
    if pyStrip uid = [] then (false, store)
    else
      match query, resolution with
      | PyVal.str q, PyVal.str r =>
        let data := load_long_term_memory store uid
        let entry : HistEntry := ⟨q, r, clock, metadata.getD []⟩
        (true, save_long_term_memory store uid (data.user_history ++ [entry]) data.smeta)
      | _, _ => (false, store)

/-- Embeds `MemoryManager.clear_user_history`: delete the user file. -/
def clear_user_history (store : Store) (user_id : List Char) : Bool × Store :=
  (true, store.filter (fun kv => decide (kv.1 ≠ user_id)))

/-! ## graph_builder.py : pipeline nodes and stage graph -/

/-- Embeds `AgentGraphBuilder.fetch_history_node`. -/
def fetch_history_node (store : Store) (state : AgentStateM) : AgentStateM :=
  if state.user_id = [] then state
  else
    { state with
      user_history := (load_long_term_memory store state.user_id).user_history,
      metadata := mset (mset state.metadata "history_loaded" (MetaVal.boolV true))
        "history_count" (MetaVal.natV (load_long_term_memory store state.user_id).user_history.length) }

/-- Embeds `AgentGraphBuilder.process_query_node`: record the latest human
message as the current query. -/
def process_query_node (state : AgentStateM) : AgentStateM :=
  match state.messages.getLast? with
  | none => state
  | some m =>
    if msgTypeIs "human" m then
      { state with metadata := mset state.metadata "current_query" (MetaVal.txtV (getattrContent m)) }
    else state

/-- The current query as `generate_response_node` reads it from metadata. -/
def currentQuery (state : AgentStateM) : List Char :=
  match mget state.metadata "current_query" with
  | some (MetaVal.txtV s) => s
  | _ => []

/-- Embeds `AgentGraphBuilder.generate_response_node`. -/
def generate_response_node (state : AgentStateM) : AgentStateM :=
  let query := currentQuery state
  if query = [] then state
  else
    let result := generate_response query state.user_history
    { state with
      messages := state.messages ++ [Msg.obj "ai" result.response],
      requires_hitl := result.requires_hitl,
      metadata := mset state.metadata "response_category" (MetaVal.tagV result.category) }

/-- Embeds `AgentGraphBuilder.check_hitl_node`. -/
def check_hitl_node (state : AgentStateM) : AgentStateM :=
  if state.requires_hitl then
    { state with
      metadata := mset (mset state.metadata "hitl_requested" (MetaVal.boolV true))
        "hitl_reason" (MetaVal.txtV "Complex query requiring human review".toList) }
  else state

/-- The response `save_interaction_node` extracts: content of the most
recent ai message, or the empty string. -/
def lastAiContent (state : AgentStateM) : List Char :=
  match state.messages.reverse.find? (msgTypeIs "ai") with
  | some m => getattrContent m
  | none => []

/-- Embeds `AgentGraphBuilder.save_interaction_node`: persist the turn to the
store and mirror it into the in-state history. -/
def save_interaction_node (clock : List Char) (store : Store) (state : AgentStateM) :
    AgentStateM × Store :=
  let user_id := state.user_id
  let query := currentQuery state
  if user_id = [] ∨ query = [] then (state, store)
  else
    let response := lastAiContent state
    let entryMeta : Metadata :=
      [("category", (mget state.metadata "response_category").getD MetaVal.noneV),
       ("thread_id", MetaVal.txtV state.thread_id)]
    let saved := append_to_history clock store (PyVal.str user_id) (PyVal.str query)
      (PyVal.str response) (some entryMeta)
    (add_user_history_entry clock state query response (some entryMeta), saved.2)

/-- Embeds `AgentGraphBuilder.trim_state_node`: trim to 5 then filter with the
default configuration. -/
def trim_state_node (state : AgentStateM) : AgentStateM :=
  filter_messages (trim_messages state 5 true) [] none

/-- The stages of the pipeline state machine (`build_graph`), with the two
terminal outcomes of the conditional edge made explicit. -/
inductive Stage where
  | FETCH_HISTORY
  | PROCESS_QUERY
  | GENERATE_RESPONSE
  | CHECK_HITL
  | SAVE_INTERACTION
  | TRIM_CONTEXT
  | DONE
  | ESCALATED
deriving DecidableEq, Repr

/-- The edge relation of `build_graph` / `route_hitl` as a step function:
`rr` is the `requires_hitl` flag consulted at `CHECK_HITL`; terminals have
no successor. -/
def nextStage (s : Stage) (rr : Bool) : Option Stage :=
  match s with
  | Stage.FETCH_HISTORY => some Stage.PROCESS_QUERY
  | Stage.PROCESS_QUERY => some Stage.GENERATE_RESPONSE
  | Stage.GENERATE_RESPONSE => some Stage.CHECK_HITL
  | Stage.CHECK_HITL => some (if rr then Stage.ESCALATED else Stage.SAVE_INTERACTION)
  | Stage.SAVE_INTERACTION => some Stage.TRIM_CONTEXT
  | Stage.TRIM_CONTEXT => some Stage.DONE
  | Stage.DONE => none
  | Stage.ESCALATED => none

/-- The stage sequence visited from `s` by iterating `nextStage`. -/
def stageTrace (rr : Bool) : Nat → Stage → List Stage
  | 0, s => [s]
  | fuel+1, s =>
    s :: (match nextStage s rr with
          | none => []
          | some s2 => stageTrace rr fuel s2)

/-- The full trace of one invocation, from the entry point. -/
def pipelineTrace (rr : Bool) : List Stage :=
  stageTrace rr 10 Stage.FETCH_HISTORY

/-- Terminal states of the machine. -/
def isTerminalStage : Stage → Bool
  | Stage.DONE => true
  | Stage.ESCALATED => true
  | _ => false

/-- The `requires_hitl` flag as it stands at the `CHECK_HITL` branch. -/
def hitlFlag (store : Store) (state : AgentStateM) : Bool :=
  (check_hitl_node (generate_response_node (process_query_node
    (fetch_history_node store state)))).requires_hitl

/-- One pipeline invocation: the nodes executed in graph order, with the
conditional branch of `route_hitl`.  Returns the visited stage sequence,
the final state, and the final store. -/
def runPipeline (clock : List Char) (store : Store) (state : AgentStateM) :
    List Stage × AgentStateM × Store :=
  let s4 := check_hitl_node (generate_response_node (process_query_node
    (fetch_history_node store state)))
  if s4.requires_hitl then
    ([Stage.FETCH_HISTORY, Stage.PROCESS_QUERY, Stage.GENERATE_RESPONSE,
      Stage.CHECK_HITL, Stage.ESCALATED], s4, store)
  else
    let saved := save_interaction_node clock store s4
    ([Stage.FETCH_HISTORY, Stage.PROCESS_QUERY, Stage.GENERATE_RESPONSE,
      Stage.CHECK_HITL, Stage.SAVE_INTERACTION, Stage.TRIM_CONTEXT, Stage.DONE],
     trim_state_node saved.1, saved.2)

/-! ## main.py : CustomerSupportAgent.approve_hitl -/

/-- Return dict of `CustomerSupportAgent.approve_hitl`. -/
structure ApproveResult where
  status : String
  message : List Char
  session_id : List Char
deriving DecidableEq, Repr

/-- Python `feedback if feedback else default`: `None` and the empty
string both fall back. -/
def pyOrElse (feedback : Option (List Char)) (default : List Char) : List Char :=
  match feedback with
  | some f => if f = [] then default else f
  | none => default

/-- Embeds `CustomerSupportAgent.approve_hitl`: builds the status message from the
`approved` flag and feedback alone; it consults no record of pending
escalations (the fresh state it creates internally is discarded except for
the returned dict). -/
def approve_hitl (user_id thread_id : List Char) (approved : Bool)
    (feedback : Option (List Char)) : ApproveResult :=
  let message :=
    if approved then
      "Your issue has been reviewed and approved. ".toList ++
        pyOrElse feedback "Our team will contact you with the resolution.".toList
    else
      "Your issue has been reviewed. ".toList ++
        pyOrElse feedback "Our team will follow up with alternative solutions.".toList
  ⟨if approved then "approved" else "rejected", message,
   user_id ++ "_".toList ++ thread_id⟩

/-! ## Helper lemmas -/

/-- The trigger conditions of `is_complex_query`, as a proposition. -/
lemma is_complex_query_iff (q : List Char) :
    is_complex_query q = true ↔
    ((∃ t ∈ complex_indicators, t <:+: pyLower q) ∨
     q.countP (fun c => decide (c = '?')) > 2 ∨
     (pyIsUpper q = true ∧ q.length > 20)) := by
  have hB : is_complex_query q =
      (complex_indicators.any (fun ind => pyContains (pyLower q) ind)
       || (decide (q.countP (fun c => decide (c = '?')) > 2)
       || (pyIsUpper q && decide (q.length > 20)))) := by
    unfold is_complex_query
    cases h1 : complex_indicators.any (fun ind => pyContains (pyLower q) ind) <;>
      by_cases h2 : q.countP (fun c => decide (c = '?')) > 2 <;>
        cases h3 : pyIsUpper q && decide (q.length > 20) <;>
          simp [h1, h2, h3]
  rw [hB]
  simp [List.any_eq_true, pyContains, Bool.or_eq_true, Bool.and_eq_true, decide_eq_true_eq]

/-! ## Claim theorems -/

/-- C1: any query containing an escalation-trigger term, or with more than
two question marks, or entirely upper-case and longer than 20 characters,
makes `generate_response` return the escalation result (`requires_hitl`
true, category "escalation", confidence 1.0), regardless of the user
history - taking precedence over the authentication path and over category
keyword scoring. -/
theorem c1_escalation_precedence (query : List Char) (user_history : List HistEntry)
    (h : (∃ t ∈ complex_indicators, t <:+: pyLower query) ∨
         query.countP (fun c => decide (c = '?')) > 2 ∨
         (pyIsUpper query = true ∧ query.length > 20)) :
    generate_response query user_history =
      ⟨escalation_text, true, "escalation", 60, none⟩ := by
  have hc : is_complex_query query = true := (is_complex_query_iff query).mpr h
  unfold generate_response
  rw [if_pos hc]

/-- Witness for C1 at the spec scenario "HOW DO I RESET MY PASSWORD???"
(three question marks, all caps, length over 20). -/
theorem c1_escalation_precedence_witness :
    generate_response "HOW DO I RESET MY PASSWORD???".toList [] =
      ⟨escalation_text, true, "escalation", 60, none⟩ :=
  c1_escalation_precedence "HOW DO I RESET MY PASSWORD???".toList []
    (Or.inr (Or.inl (by decide)))

/-- C2: one invocation visits the four common stages and then exactly one
terminal: `ESCALATED` when `requires_hitl` holds at `CHECK_HITL` (in which
case `SAVE_INTERACTION` and `TRIM_CONTEXT` are never visited and the
history store is unchanged), else `SAVE_INTERACTION`, `TRIM_CONTEXT` and
terminal `DONE`; terminals have no successor stage. -/
theorem c2_pipeline_terminals (clock : List Char) (store : Store) (state : AgentStateM) :
    ((runPipeline clock store state).1 = pipelineTrace (hitlFlag store state)
     ∧ pipelineTrace true = [Stage.FETCH_HISTORY, Stage.PROCESS_QUERY,
         Stage.GENERATE_RESPONSE, Stage.CHECK_HITL, Stage.ESCALATED]
     ∧ pipelineTrace false = [Stage.FETCH_HISTORY, Stage.PROCESS_QUERY,
         Stage.GENERATE_RESPONSE, Stage.CHECK_HITL, Stage.SAVE_INTERACTION,
         Stage.TRIM_CONTEXT, Stage.DONE])
    ∧ (∀ rr : Bool, (pipelineTrace rr).countP isTerminalStage = 1
        ∧ (pipelineTrace rr).getLast? = some (if rr then Stage.ESCALATED else Stage.DONE)
        ∧ nextStage Stage.DONE rr = none ∧ nextStage Stage.ESCALATED rr = none)
    ∧ (hitlFlag store state = true →
        (runPipeline clock store state).2.2 = store
        ∧ Stage.SAVE_INTERACTION ∉ (runPipeline clock store state).1
        ∧ Stage.TRIM_CONTEXT ∉ (runPipeline clock store state).1) := by
  refine ⟨⟨?_, by decide, by decide⟩, ?_, ?_⟩
  · unfold runPipeline hitlFlag
    by_cases h : (check_hitl_node (generate_response_node (process_query_node
        (fetch_history_node store state)))).requires_hitl = true
    · rw [if_pos h, h]; rfl
    · rw [if_neg h, Bool.not_eq_true _ |>.mp h]; rfl
  · intro rr; cases rr <;> exact ⟨by decide, by decide, by decide, by decide⟩
  · intro h
    unfold hitlFlag at h
    unfold runPipeline
    rw [if_pos h]
    refine ⟨rfl, ?_, ?_⟩ <;> simp

/-- Witness for C2 on an escalating turn: a "refund" query leaves the
store untouched and never visits the persistence stages. -/
theorem c2_pipeline_terminals_witness :
    hitlFlag [] ⟨[Msg.obj "human" "I want a refund".toList], [], "u1".toList, "t1".toList,
        [], false, none⟩ = true
    ∧ (runPipeline "2024-01-01T00:00:00".toList []
        ⟨[Msg.obj "human" "I want a refund".toList], [], "u1".toList, "t1".toList,
         [], false, none⟩).2.2 = [] :=
  ⟨by decide,
   ((c2_pipeline_terminals "2024-01-01T00:00:00".toList []
      ⟨[Msg.obj "human" "I want a refund".toList], [], "u1".toList, "t1".toList,
       [], false, none⟩).2.2 (by decide)).1⟩

/-- Python `l[-k:]` for positive `k` is "drop all but the last `k`". -/
lemma pySliceFrom_neg {α : Type} (l : List α) (k : Nat) (hk : 0 < k) :
    pySliceFrom l (-(k : Int)) = l.drop (l.length - k) := by
  unfold pySliceFrom
  rw [if_neg (by omega)]
  simp

/-- Lookup after update at the same key. -/
lemma mget_mset_self (m : Metadata) (k : String) (v : MetaVal) :
    mget (mset m k v) k = some v := by
  unfold mget mset
  simp [List.find?]

/-- Lookup after update at a different key. -/
lemma mget_mset_other (m : Metadata) (k k' : String) (v : MetaVal) (h : k ≠ k') :
    mget (mset m k' v) k = mget m k := by
  unfold mget mset
  rw [List.find?_cons_of_neg _ (by simpa using fun hkk => h hkk.symm)]
  congr 1
  induction m with
  | nil => rfl
  | cons hd tl ih =>
    by_cases hq : hd.1 = k'
    · rw [List.filter_cons_of_neg (by simpa using hq),
        List.find?_cons_of_neg _ (by simp only [hq, decide_eq_true_eq]; exact fun hh => h hh.symm)]
      exact ih
    · rw [List.filter_cons_of_pos (by simpa using hq)]
      by_cases hp : hd.1 = k
      · rw [List.find?_cons_of_pos _ (by simpa using hp),
          List.find?_cons_of_pos _ (by simpa using hp)]
      · rw [List.find?_cons_of_neg _ (by simpa using hp),
          List.find?_cons_of_neg _ (by simpa using hp)]
        exact ih

/-- Session state used as the C3 counterexample: five user messages, then
a system message, then one more user message. -/
def c3CexState : AgentStateM :=
  ⟨[Msg.obj "human" "u1".toList, Msg.obj "human" "u2".toList, Msg.obj "human" "u3".toList,
    Msg.obj "human" "u4".toList, Msg.obj "human" "u5".toList, Msg.obj "system" "s".toList,
    Msg.obj "human" "u6".toList], [], "u".toList, "t".toList, [], false, none⟩

/-- C3 counterexample: trimming does NOT keep the kept messages in original
relative order - the system message is moved in front of the retained
non-system messages (here it originally sat between u5 and u6), so the
result is not even a subsequence of the original log. -/
theorem c3_trim_order_counterexample :
    (trim_messages c3CexState 5 true).messages =
      [Msg.obj "system" "s".toList, Msg.obj "human" "u3".toList, Msg.obj "human" "u4".toList,
       Msg.obj "human" "u5".toList, Msg.obj "human" "u6".toList]
    ∧ ¬ List.Sublist (trim_messages c3CexState 5 true).messages c3CexState.messages := by
  exact ⟨by decide, by decide⟩

/-- C3 amended: with `preserve_system` set, a log of at most `max` messages
is returned unchanged; a longer log (with fewer system messages than `max`)
becomes all system messages first, followed by the most recent
`max - count(system)` non-system messages - each block in original
relative order, but system messages are moved in front of the rest rather
than interleaved in log order; the number of removed messages and the
pre-trim total are recorded in metadata. -/
theorem c3_trim_amended (state : AgentStateM) (max_messages : Nat) :
    (state.messages.length ≤ max_messages →
       trim_messages state max_messages true = state)
    ∧ (state.messages.length > max_messages →
       (state.messages.filter (msgTypeIs "system")).length < max_messages →
       (trim_messages state max_messages true).messages =
         state.messages.filter (msgTypeIs "system") ++
         lastN (state.messages.filter (fun m => !(msgTypeIs "system" m)))
           (max_messages - (state.messages.filter (msgTypeIs "system")).length))
    ∧ (state.messages.length > max_messages →
       mget (trim_messages state max_messages true).metadata "messages_trimmed"
         = some (MetaVal.natV (state.messages.length -
             (trim_messages state max_messages true).messages.length))
       ∧ mget (trim_messages state max_messages true).metadata "total_messages_before_trim"
         = some (MetaVal.natV state.messages.length)) := by
  refine ⟨?_, ?_, ?_⟩
  · intro hle
    unfold trim_messages
    rw [if_pos hle]
  · intro hgt hsys
    unfold trim_messages
    rw [if_neg (by omega)]
    simp only [if_true]
    have hcast : (-((max_messages : Int) - ((state.messages.filter (msgTypeIs "system")).length : Int)))
        = -(((max_messages - (state.messages.filter (msgTypeIs "system")).length : Nat) : Int)) := by
      omega
    rw [hcast, pySliceFrom_neg _ _ (by omega)]
    rfl
  · intro hgt
    unfold trim_messages
    rw [if_neg (by omega)]
    constructor
    · rw [mget_mset_other _ _ _ _ (by decide), mget_mset_self]
    · rw [mget_mset_self]

/-- Witness for C3 at the spec scenario: seven non-system messages with
`max = 5` keep the last five in order and record `messages_trimmed = 2`. -/
theorem c3_trim_amended_witness :
    (trim_messages ⟨[Msg.obj "human" "q1".toList, Msg.obj "human" "q2".toList,
        Msg.obj "human" "q3".toList, Msg.obj "human" "q4".toList, Msg.obj "human" "q5".toList,
        Msg.obj "human" "q6".toList, Msg.obj "human" "q7".toList],
        [], "u".toList, "t".toList, [], false, none⟩ 5 true).messages =
      [Msg.obj "human" "q3".toList, Msg.obj "human" "q4".toList, Msg.obj "human" "q5".toList,
       Msg.obj "human" "q6".toList, Msg.obj "human" "q7".toList]
    ∧ mget (trim_messages ⟨[Msg.obj "human" "q1".toList, Msg.obj "human" "q2".toList,
        Msg.obj "human" "q3".toList, Msg.obj "human" "q4".toList, Msg.obj "human" "q5".toList,
        Msg.obj "human" "q6".toList, Msg.obj "human" "q7".toList],
        [], "u".toList, "t".toList, [], false, none⟩ 5 true).metadata "messages_trimmed"
      = some (MetaVal.natV 2) :=
  ⟨((c3_trim_amended ⟨[Msg.obj "human" "q1".toList, Msg.obj "human" "q2".toList,
        Msg.obj "human" "q3".toList, Msg.obj "human" "q4".toList, Msg.obj "human" "q5".toList,
        Msg.obj "human" "q6".toList, Msg.obj "human" "q7".toList],
        [], "u".toList, "t".toList, [], false, none⟩ 5).2.1 (by decide) (by decide)).trans
      (by decide),
   (((c3_trim_amended ⟨[Msg.obj "human" "q1".toList, Msg.obj "human" "q2".toList,
        Msg.obj "human" "q3".toList, Msg.obj "human" "q4".toList, Msg.obj "human" "q5".toList,
        Msg.obj "human" "q6".toList, Msg.obj "human" "q7".toList],
        [], "u".toList, "t".toList, [], false, none⟩ 5).2.2 (by decide)).1).trans (by decide)⟩

/-- C4 counterexample: a legacy dictionary message whose role is "system"
IS removed by `trim_messages` with `preserve_system` set, once the log
exceeds the maximum - `hasattr(msg, 'type')` fails on a dict, so the code
classifies it non-system and the tail slice drops it (here the dict sits
first among seven messages with max 5). -/
theorem c4_trim_drops_dict_system_counterexample :
    msgRole (Msg.dict "system" "policy".toList) = "system"
    ∧ Msg.dict "system" "policy".toList ∈
        ([Msg.dict "system" "policy".toList, Msg.obj "human" "a1".toList,
          Msg.obj "human" "a2".toList, Msg.obj "human" "a3".toList, Msg.obj "human" "a4".toList,
          Msg.obj "human" "a5".toList, Msg.obj "human" "a6".toList] : List Msg)
    ∧ Msg.dict "system" "policy".toList ∉
        (trim_messages ⟨[Msg.dict "system" "policy".toList, Msg.obj "human" "a1".toList,
          Msg.obj "human" "a2".toList, Msg.obj "human" "a3".toList, Msg.obj "human" "a4".toList,
          Msg.obj "human" "a5".toList, Msg.obj "human" "a6".toList],
          [], "u".toList, "t".toList, [], false, none⟩ 5 true).messages :=
  ⟨by decide, by decide, by decide⟩

/-- C4 amended: with `preserve_system` set, `trim_messages` never removes a
system MESSAGE OBJECT (one whose `type` attribute is "system"), whatever
the message count and maximum; legacy dictionary messages with role
"system" are exempt - `hasattr` sees no `type` attribute on them, they are
classified non-system and can be trimmed away (see the counterexample). -/
theorem c4_trim_never_drops_system (state : AgentStateM) (max_messages : Nat) (m : Msg)
    (hm : m ∈ state.messages) (hsys : msgTypeIs "system" m = true) :
    m ∈ (trim_messages state max_messages true).messages := by
  unfold trim_messages
  by_cases hle : state.messages.length ≤ max_messages
  · rw [if_pos hle]; exact hm
  · rw [if_neg hle]
    simp only [if_true]
    exact List.mem_append_left _ (List.mem_filter.mpr ⟨hm, hsys⟩)

/-- Witness for C4 (amended): a system message object survives even though
the seven non-system messages alone exceed the maximum of 3. -/
theorem c4_trim_never_drops_system_witness :
    Msg.obj "system" "rules".toList ∈
      (trim_messages ⟨[Msg.obj "human" "a1".toList, Msg.obj "human" "a2".toList,
        Msg.obj "human" "a3".toList, Msg.obj "system" "rules".toList,
        Msg.obj "human" "a4".toList, Msg.obj "human" "a5".toList, Msg.obj "human" "a6".toList,
        Msg.obj "human" "a7".toList], [], "u".toList, "t".toList, [], false, none⟩
        3 true).messages :=
  c4_trim_never_drops_system ⟨[Msg.obj "human" "a1".toList, Msg.obj "human" "a2".toList,
        Msg.obj "human" "a3".toList, Msg.obj "system" "rules".toList,
        Msg.obj "human" "a4".toList, Msg.obj "human" "a5".toList, Msg.obj "human" "a6".toList,
        Msg.obj "human" "a7".toList], [], "u".toList, "t".toList, [], false, none⟩
    3 (Msg.obj "system" "rules".toList) (by decide) (by decide)

/-- A non-empty needle that contains no character removed by `dropWhile p`
stays a substring after `dropWhile p`. -/
lemma sub_dropWhile (p : Char → Bool) (kw : List Char) (hne : kw ≠ [])
    (hnp : ∀ c ∈ kw, p c = false) :
    ∀ s : List Char, kw <:+: s → kw <:+: s.dropWhile p := by
  intro s
  induction s with
  | nil =>
    intro h
    rw [List.infix_nil] at h
    exact absurd h hne
  | cons x xs ih =>
    intro h
    rw [List.dropWhile_cons]
    by_cases hx : p x = true
    · rw [if_pos hx]
      apply ih
      rcases List.infix_cons_iff.mp h with hpre | htail
      · cases kw with
        | nil => exact absurd rfl hne
        | cons k kw2 =>
          obtain ⟨t, ht⟩ := hpre
          have hk : k = x := by
            have := congrArg (fun l => l.head?) ht
            simpa using this
          have := hnp k (List.mem_cons_self k kw2)
          rw [hk, hx] at this
          exact absurd this (by simp)
      · exact htail
    · rw [if_neg hx]
      exact h

/-- A non-empty, whitespace-free needle survives Python `strip`. -/
lemma sub_pyStrip (kw s : List Char) (hne : kw ≠ [])
    (hnp : ∀ c ∈ kw, pyIsSpace c = false) (h : kw <:+: s) : kw <:+: pyStrip s := by
  unfold pyStrip
  have h1 := sub_dropWhile pyIsSpace kw hne hnp s h
  have h2 := h1.reverse
  have h3 := sub_dropWhile pyIsSpace kw.reverse (by simpa using hne)
    (fun c hc => hnp c (List.mem_reverse.mp hc)) _ h2
  have h4 := h3.reverse
  simpa using h4

/-- The function `filterLoop` only ever appends to the accumulator. -/
lemma filterLoop_eq_append (cfg : FilterConfig) (ex : List String) (msgs : List Msg) :
    ∀ acc : List Msg, ∃ t, filterLoop cfg ex msgs acc = acc ++ t := by
  induction msgs with
  | nil => intro acc; exact ⟨[], by simp [filterLoop]⟩
  | cons m rest ih =>
    intro acc
    unfold filterLoop
    dsimp only
    split
    · exact ih acc
    · split
      · obtain ⟨t, ht⟩ := ih (acc ++ [m])
        exact ⟨m :: t, by rw [ht]; simp⟩
      · split
        · exact ih acc
        · split
          · exact ih acc
          · split
            · exact ih acc
            · split
              · exact ih acc
              · obtain ⟨t, ht⟩ := ih (acc ++ [m])
                exact ⟨m :: t, by rw [ht]; simp⟩

/-- Whatever is already accepted stays in the result of `filterLoop`. -/
lemma mem_filterLoop_acc (cfg : FilterConfig) (ex : List String) (msgs acc : List Msg)
    (x : Msg) (hx : x ∈ acc) : x ∈ filterLoop cfg ex msgs acc := by
  obtain ⟨t, ht⟩ := filterLoop_eq_append cfg ex msgs acc
  rw [ht]
  exact List.mem_append_left _ hx

/-- Every important keyword is non-empty and whitespace-free. -/
lemma important_keywords_clean :
    ∀ kw ∈ important_keywords, kw ≠ [] ∧ ∀ c ∈ kw, pyIsSpace c = false := by decide

/-- With the default configuration and empty `exclude_roles`, a message
object that is a system message or whose content contains an important
keyword (case-insensitively) is accepted by the filter loop. -/
lemma filterLoop_keeps_important (msgs : List Msg) (t : String) (c : List Char)
    (hkeep : t = "system" ∨ ∃ kw ∈ important_keywords, kw <:+: pyLower c) :
    ∀ acc : List Msg, Msg.obj t c ∈ msgs → Msg.obj t c ∈ filterLoop {} [] msgs acc := by
  induction msgs with
  | nil => intro acc hm; cases hm
  | cons m rest ih =>
    intro acc hm
    rcases List.mem_cons.mp hm with heq | htail
    · unfold filterLoop
      dsimp only
      rw [if_neg (by simp)]
      have hcond : (msgTypeIs "system" m ||
          (FilterConfig.preserve_important {} &&
            important_keywords.any (fun kw =>
              pyContains (pyStrip (pyLower (getattrContent m))) kw))) = true := by
        rcases hkeep with hsys | ⟨kw, hkw, hinf⟩
        · apply Bool.or_eq_true_iff.mpr
          left
          rw [← heq, hsys]
          rfl
        · apply Bool.or_eq_true_iff.mpr
          right
          apply Bool.and_eq_true_iff.mpr
          refine ⟨rfl, ?_⟩
          apply List.any_eq_true.mpr
          refine ⟨kw, hkw, ?_⟩
          obtain ⟨hne, hnp⟩ := important_keywords_clean kw hkw
          have : kw <:+: pyStrip (pyLower c) := sub_pyStrip kw (pyLower c) hne hnp hinf
          rw [← heq]
          exact decide_eq_true this
      rw [if_pos hcond]
      exact mem_filterLoop_acc _ _ _ _ _ (by rw [← heq] at *; exact List.mem_append_right _ (List.mem_singleton.mpr rfl))
    · unfold filterLoop
      dsimp only
      split
      · exact ih acc htail
      · split
        · exact ih (acc ++ [m]) htail
        · split
          · exact ih acc htail
          · split
            · exact ih acc htail
            · split
              · exact ih acc htail
              · split
                · exact ih acc htail
                · exact ih (acc ++ [m]) htail

/-- C5 counterexample: a legacy dictionary message whose role is "system"
and whose content contains the important keywords "reset" and "password"
is nevertheless removed by `filter_messages` under the default
configuration (attribute access sees an empty content string). -/
theorem c5_filter_important_counterexample :
    msgRole (Msg.dict "system" "please reset my password".toList) = "system"
    ∧ (∃ kw ∈ important_keywords,
        kw <:+: pyLower (msgContent (Msg.dict "system" "please reset my password".toList)))
    ∧ (filter_messages ⟨[Msg.dict "system" "please reset my password".toList],
        [], "u".toList, "t".toList, [], false, none⟩ [] none).messages = [] :=
  ⟨by decide, by decide, by decide⟩

/-- C5 amended: under the default configuration (with `preserve_important`
set and empty `exclude_roles`), `filter_messages` never removes a message
OBJECT that is a system message or whose content contains an important
keyword, regardless of length, greeting match, non-actionable match or
duplication - the important/system keep rule overrides every drop rule.
(Legacy dictionary messages are exempt: attribute access reads their
content as empty, and they are dropped - see the counterexample.) -/
theorem c5_filter_keeps_important (state : AgentStateM) (t : String) (c : List Char)
    (hm : Msg.obj t c ∈ state.messages)
    (hkeep : t = "system" ∨ ∃ kw ∈ important_keywords, kw <:+: pyLower c) :
    Msg.obj t c ∈ (filter_messages state [] none).messages := by
  unfold filter_messages
  dsimp only
  exact filterLoop_keeps_important state.messages t c hkeep [] hm

/-- Witness for C5: the five-character message "Error" (shorter than the
minimum length 10, and containing the important keyword "error" after
lowercasing) survives the filter. -/
theorem c5_filter_keeps_important_witness :
    Msg.obj "human" "Error".toList ∈
      (filter_messages ⟨[Msg.obj "human" "Error".toList],
        [], "u".toList, "t".toList, [], false, none⟩ [] none).messages :=
  c5_filter_keeps_important ⟨[Msg.obj "human" "Error".toList],
      [], "u".toList, "t".toList, [], false, none⟩ "human" "Error".toList
    (by decide) (Or.inr (by decide))

/-- Loading right after saving the same user returns the saved blob. -/
lemma load_save_self (store : Store) (uid : List Char) (hist : List HistEntry)
    (meta : Metadata) :
    load_long_term_memory (save_long_term_memory store uid hist meta) uid = ⟨hist, meta⟩ := by
  unfold load_long_term_memory save_long_term_memory
  rw [List.find?_cons_of_pos _ (by simp)]

/-- C6: a successful `append_to_history` followed by a load of the same
user returns a history whose last element is exactly the appended entry
(query, resolution, clock timestamp, metadata); loading a user with no
stored data returns the empty history. -/
theorem c6_history_roundtrip (clock : List Char) (store : Store)
    (u q r : List Char) (m : Option Metadata) :
    ((append_to_history clock store (PyVal.str u) (PyVal.str q) (PyVal.str r) m).1 = true →
      (load_long_term_memory
          (append_to_history clock store (PyVal.str u) (PyVal.str q) (PyVal.str r) m).2
          u).user_history.getLast?
        = some ⟨q, r, clock, m.getD []⟩)
    ∧ (∀ u2 : List Char, (∀ kv ∈ store, kv.1 ≠ u2) →
        (load_long_term_memory store u2).user_history = []) := by
  constructor
  · intro hok
    unfold append_to_history at hok ⊢
    dsimp only at hok ⊢
    by_cases hu : pyStrip u = []
    · rw [if_pos hu] at hok
      exact absurd hok (by simp)
    · rw [if_neg hu] at hok ⊢
      dsimp only
      rw [load_save_self]
      exact List.getLast?_concat _
  · intro u2 hnone
    unfold load_long_term_memory
    rw [List.find?_eq_none.mpr (fun kv hkv => by simpa using hnone kv hkv)]

/-- Witness for C6 on the empty store: append one entry for "alice" and
read it back; loading the unknown user "bob" yields the empty history. -/
theorem c6_history_roundtrip_witness :
    (append_to_history "2024-05-05T10:00:00".toList [] (PyVal.str "alice".toList)
        (PyVal.str "how do i pay".toList) (PyVal.str "see billing docs".toList) none).1 = true
    ∧ (load_long_term_memory
        (append_to_history "2024-05-05T10:00:00".toList [] (PyVal.str "alice".toList)
          (PyVal.str "how do i pay".toList) (PyVal.str "see billing docs".toList) none).2
        "alice".toList).user_history.getLast?
      = some ⟨"how do i pay".toList, "see billing docs".toList,
          "2024-05-05T10:00:00".toList, []⟩
    ∧ (load_long_term_memory [] "bob".toList).user_history = [] :=
  ⟨by decide,
   (c6_history_roundtrip "2024-05-05T10:00:00".toList [] "alice".toList
      "how do i pay".toList "see billing docs".toList none).1 (by decide),
   (c6_history_roundtrip "2024-05-05T10:00:00".toList [] "alice".toList
      "how do i pay".toList "see billing docs".toList none).2 "bob".toList
     (by intro kv hkv; cases hkv)⟩

/-- C7: the exact lowercase query "how do i reset my password" takes the
authentication path and returns the canned 5-step password-reset script
with `requires_hitl = false`; in general, every non-escalated
authentication query returns the mock-LLM answer with fixed confidence
0.95, where the catalog is consulted by exact key first, then by word-set
overlap ratio above 0.5 (a fuzzy hit always clears the threshold), with a
generic authentication-troubleshooting fallback when nothing matches. -/
theorem c7_authentication_path :
    (∀ hist : List HistEntry,
       generate_response "how do i reset my password".toList hist =
         ⟨resp_pw_reset, false, "authentication", 57, some "mock_llm"⟩)
    ∧ (∀ (q : List Char) (hist : List HistEntry),
        is_complex_query q = false → is_authentication_query q = true →
        generate_response q hist =
          ⟨mockGetResponse q, false, "authentication", 57, some "mock_llm"⟩)
    ∧ (∀ (q : List Char) (kv : List Char × List Char),
        mockFuzzy (pyStrip (pyLower q)) = some kv →
        kv ∈ mock_responses ∧ is_similar_query (pyStrip (pyLower q)) kv.1 = true)
    ∧ (∀ q : List Char,
        mockDirect (pyStrip (pyLower q)) = none →
        mockFuzzy (pyStrip (pyLower q)) = none →
        mockGetResponse q = default_auth_response) := by
  refine ⟨?_, ?_, ?_, ?_⟩
  · intro hist
    unfold generate_response
    rw [if_neg (by decide), if_pos (by decide)]
    decide
  · intro q hist hc ha
    unfold generate_response
    rw [if_neg (by simp [hc]), if_pos ha]
  · intro q kv hf
    unfold mockFuzzy at hf
    exact ⟨List.mem_of_find?_eq_some hf, by simpa using List.find?_some hf⟩
  · intro q hd hf
    unfold mockGetResponse
    dsimp only
    rw [hd, hf]

/-- Witness for C7 (general authentication conjunct) at the query
"my account is locked what should i do". -/
theorem c7_authentication_path_witness :
    generate_response "my account is locked what should i do".toList [] =
      ⟨mockGetResponse "my account is locked what should i do".toList,
       false, "authentication", 57, some "mock_llm"⟩ :=
  c7_authentication_path.2.1 "my account is locked what should i do".toList []
    (by decide) (by decide)

/-- C8 counterexample: an entry with EMPTY query and resolution passes the
validation of `append_to_history` and is persisted - the code checks only
that query and resolution are strings, not that they are non-empty. -/
theorem c8_empty_entry_counterexample :
    (append_to_history "2024-01-01T00:00:00".toList [] (PyVal.str "u1".toList)
        (PyVal.str []) (PyVal.str []) none).1 = true
    ∧ (load_long_term_memory
        (append_to_history "2024-01-01T00:00:00".toList [] (PyVal.str "u1".toList)
          (PyVal.str []) (PyVal.str []) none).2 "u1".toList).user_history
      = [⟨[], [], "2024-01-01T00:00:00".toList, []⟩] :=
  ⟨by decide, by decide⟩

/-- C8 amended: `append_to_history` rejects exactly the calls whose
`user_id` is not a string with non-whitespace content or whose query or
resolution is not a string; empty-string query and resolution are accepted,
and a successful append stores the entry with the given (possibly empty)
strings and the clock timestamp. -/
theorem c8_validation_amended (clock : List Char) (store : Store)
    (q r : PyVal) (m : Option Metadata) :
    (∀ u qs rs : List Char,
       (append_to_history clock store (PyVal.str u) (PyVal.str qs) (PyVal.str rs) m).1 = true
         ↔ pyStrip u ≠ [])
    ∧ (append_to_history clock store PyVal.nonStr q r m).1 = false
    ∧ (∀ u : List Char,
        (append_to_history clock store (PyVal.str u) PyVal.nonStr r m).1 = false)
    ∧ (∀ u qs : List Char,
        (append_to_history clock store (PyVal.str u) (PyVal.str qs) PyVal.nonStr m).1 = false)
    ∧ (∀ u qs rs : List Char,
        (append_to_history clock store (PyVal.str u) (PyVal.str qs) (PyVal.str rs) m).1 = true →
        (load_long_term_memory
            (append_to_history clock store (PyVal.str u) (PyVal.str qs) (PyVal.str rs) m).2
            u).user_history.getLast?
          = some ⟨qs, rs, clock, m.getD []⟩) := by
  refine ⟨?_, rfl, fun u => ?_, fun u qs => ?_, ?_⟩
  · intro u qs rs
    unfold append_to_history
    dsimp only
    by_cases hu : pyStrip u = []
    · rw [if_pos hu]; simp [hu]
    · rw [if_neg hu]; simp [hu]
  · unfold append_to_history
    dsimp only
    by_cases hu : pyStrip u = []
    · rw [if_pos hu]
    · rw [if_neg hu]
  · unfold append_to_history
    dsimp only
    by_cases hu : pyStrip u = []
    · rw [if_pos hu]
    · rw [if_neg hu]
  · intro u qs rs hok
    unfold append_to_history at hok ⊢
    dsimp only at hok ⊢
    by_cases hu : pyStrip u = []
    · rw [if_pos hu] at hok
      exact absurd hok (by simp)
    · rw [if_neg hu] at hok ⊢
      dsimp only
      rw [load_save_self]
      exact List.getLast?_concat _

/-- Witness for C8: the success criterion instantiated at user "u1" with
an empty query and resolution; the empty entry is stored. -/
theorem c8_validation_amended_witness :
    (append_to_history "2024-02-02T00:00:00".toList [] (PyVal.str "u1".toList)
        (PyVal.str []) (PyVal.str []) none).1 = true
    ∧ (load_long_term_memory
        (append_to_history "2024-02-02T00:00:00".toList [] (PyVal.str "u1".toList)
          (PyVal.str []) (PyVal.str []) none).2 "u1".toList).user_history.getLast?
      = some ⟨[], [], "2024-02-02T00:00:00".toList, []⟩ :=
  ⟨((c8_validation_amended "2024-02-02T00:00:00".toList [] PyVal.nonStr PyVal.nonStr
       none).1 "u1".toList [] []).mpr (by decide),
   (c8_validation_amended "2024-02-02T00:00:00".toList [] PyVal.nonStr PyVal.nonStr
       none).2.2.2.2 "u1".toList [] []
     (((c8_validation_amended "2024-02-02T00:00:00".toList [] PyVal.nonStr PyVal.nonStr
       none).1 "u1".toList [] []).mpr (by decide))⟩

/-- C9 counterexample: resolving an escalation for a session with no
pending escalation (here a fresh pair of identifiers against which nothing
was ever escalated - `approve_hitl` consults no pending-escalation record
at all) returns the NORMAL statuses "approved" / "rejected", not a
NotFoundError. -/
theorem c9_resolve_escalation_counterexample :
    (approve_hitl "u1".toList "t1".toList true none).status = "approved"
    ∧ (approve_hitl "u1".toList "t1".toList false none).status = "rejected" :=
  ⟨by decide, by decide⟩

/-- C9 amended: `approve_hitl` reports a status determined solely by the
`approved` flag - "approved" or "rejected" - for every `(user_id,
thread_id)`, whether or not a pending, unresolved escalation exists; no
NotFoundError path exists in the code. -/
theorem c9_resolve_escalation_amended (user_id thread_id : List Char)
    (approved : Bool) (feedback : Option (List Char)) :
    (approve_hitl user_id thread_id approved feedback).status
      = (if approved then "approved" else "rejected")
    ∧ (approve_hitl user_id thread_id approved feedback).session_id
      = user_id ++ "_".toList ++ thread_id := by
  unfold approve_hitl
  exact ⟨rfl, rfl⟩

/-- The filter loop of `filter_messages` (default config, no excluded
roles) never emits a legacy dictionary message: its content reads as the
empty string, which fails the minimum-length filter. -/
lemma filterLoop_all_obj (msgs : List Msg) :
    ∀ acc : List Msg, acc.all msgIsObj = true →
      (filterLoop {} [] msgs acc).all msgIsObj = true := by
  induction msgs with
  | nil => intro acc h; simpa [filterLoop] using h
  | cons m rest ih =>
    intro acc h
    unfold filterLoop
    dsimp only
    cases m with
    | obj t c =>
      have happ : (acc ++ [Msg.obj t c]).all msgIsObj = true := by
        simp only [List.all_append, h, Bool.true_and]
        rfl
      split
      · exact ih acc h
      · split
        · exact ih _ happ
        · split
          · exact ih acc h
          · split
            · exact ih acc h
            · split
              · exact ih acc h
              · split
                · exact ih acc h
                · exact ih _ happ
    | dict r c =>
      have hget : getattrContent (Msg.dict r c) = [] := rfl
      have hsys : msgTypeIs "system" (Msg.dict r c) = false := rfl
      rw [if_neg (by simp [msgHasType])]
      rw [hget, hsys]
      rw [if_neg (by decide), if_pos (by decide)]
      exact ih acc h

/-- C10: every legacy dictionary message - whatever its role and content,
including dictionary system messages and dictionaries whose content
contains an important keyword - is removed by `filter_messages` under the
default configuration: attribute access yields an empty content string
(conjunct 2), which fails the minimum-length filter, so the output
contains only message objects (conjunct 3); yet such dictionaries are
accepted by the state validator (conjunct 1). -/
theorem c10_filter_drops_legacy_dicts (state : AgentStateM) (r : String) (c : List Char) :
    validMessage (Msg.dict "system" c) = true
    ∧ getattrContent (Msg.dict r c) = []
    ∧ (filter_messages state [] none).messages.all msgIsObj = true := by
  refine ⟨rfl, rfl, ?_⟩
  unfold filter_messages
  dsimp only
  exact filterLoop_all_obj state.messages [] rfl
